import Mathlib

/-!
Verification of the session-orchestration core of the `speak` voice-dictation
application: the streaming-protocol client running in the STT worker
(`worker/sttSession.ts`), the worker host (`main/workerManager.ts`), the state
orchestrator (`main/stateManager.ts`), the latency monitor
(`main/perfMonitor.ts`) and the clipboard verifier (`main/clipboard.ts`).

Each TypeScript class is embedded as a Lean structure holding its mutable
fields, and each method as a pure function from the old state (plus an
environment describing external collaborators) to the new state together with
the observable effects of the call (frames transmitted, events emitted, timers
scheduled). Times and delays are modelled as rationals.
-/

namespace Speak

/-- An audio frame (one 20 ms PCM16 chunk), identified abstractly. -/
abbrev Frame := Nat

/-- A message the STT worker posts to its parent thread
(`TranscriptResult` in `worker/sttSession.ts`). -/
inductive WorkerMsg where
  | transcriptPartial (text : String)
  | transcriptFinal (text : String) (confidence : ℚ)
  | errorMsg (msg : String)
  | statusMsg (s : String)
deriving DecidableEq, Repr

/-- State of the protocol client `STTSession` (`worker/sttSession.ts`):
the connection flags, the reconnect counter, the pending audio queue
(`audioBuffer`), together with the observable traces of the run — the frames
handed to `sendAudioData` in transmission order (`sentAudio`), the messages
posted to the parent thread, and the backoff delays of the reconnects
scheduled via `setTimeout`. -/
structure STTSession where
  isConnected : Bool
  isSessionActive : Bool
  reconnectAttempts : Nat
  audioBuffer : List Frame
  sentAudio : List Frame
  parentMsgs : List WorkerMsg
  scheduledReconnects : List ℚ
deriving DecidableEq, Repr

/-- `maxReconnectAttempts` constant of `STTSession`. -/
def STTSession.maxReconnectAttempts : Nat := 5

/-- `STTSession.appendAudio`: if the socket is not connected or the session is
not active, push the frame onto `audioBuffer`; otherwise transmit the frame
immediately and then, if the queue is non-empty, transmit every queued frame
in queue order and empty the queue. -/
def STTSession.appendAudio (s : STTSession) (f : Frame) : STTSession :=
  if !s.isConnected || !s.isSessionActive then
    { s with audioBuffer := s.audioBuffer ++ [f] }
  else
    let s1 := { s with sentAudio := s.sentAudio ++ [f] }
    if s1.audioBuffer.length > 0 then
      { s1 with sentAudio := s1.sentAudio ++ s1.audioBuffer, audioBuffer := [] }
    else
      s1

/-- The `open` handler of the socket together with `STTSession.onConnected`:
mark the connection open, zero the reconnect counter, send the
session-configuration handshake (not an audio frame), start the heartbeat and
mark the session active. The pending audio queue is not touched. -/
def STTSession.onOpen (s : STTSession) : STTSession :=
  { s with isConnected := true, reconnectAttempts := 0, isSessionActive := true }

/-- Backoff delay used by `STTSession.scheduleReconnect` for a given attempt
counter: `Math.min(100 * Math.pow(1.6, attempts), 25600)`. -/
def reconnectDelay (attempt : Nat) : ℚ :=
  min (100 * (8 / 5 : ℚ) ^ attempt) 25600

/-- `STTSession.scheduleReconnect`: compute the backoff delay from the current
attempt counter, increment the counter, and schedule a reconnect after that
delay. -/
def STTSession.scheduleReconnect (s : STTSession) : STTSession :=
  { s with
      scheduledReconnects := s.scheduledReconnects ++ [reconnectDelay s.reconnectAttempts],
      reconnectAttempts := s.reconnectAttempts + 1 }

/-- `STTSession.handleDisconnection`: clear the connection flags and stop the
heartbeat; if the attempt counter is below `maxReconnectAttempts`, schedule a
reconnect, otherwise post a fatal error to the parent. -/
def STTSession.handleDisconnection (s : STTSession) : STTSession :=
  let s1 := { s with isConnected := false, isSessionActive := false }
  if s1.reconnectAttempts < STTSession.maxReconnectAttempts then
    s1.scheduleReconnect
  else
    { s1 with parentMsgs := s1.parentMsgs ++ [.errorMsg "Max reconnection attempts exceeded"] }

/-- A protocol client with nothing yet queued, sent or emitted, and the
socket not yet open. -/
def sttInit : STTSession :=
  { isConnected := false
    isSessionActive := false
    reconnectAttempts := 0
    audioBuffer := []
    sentAudio := []
    parentMsgs := []
    scheduledReconnects := [] }

/-- The run refuting claim C1: append frame `1` while disconnected, reconnect,
then append frame `2`. -/
def c1Run : STTSession := ((sttInit.appendAudio 1).onOpen).appendAudio 2

theorem reconnectDelay_mono (n : Nat) : reconnectDelay n ≤ reconnectDelay (n + 1) := by
  unfold reconnectDelay
  refine min_le_min ?_ le_rfl
  have h : (8 / 5 : ℚ) ^ n ≤ (8 / 5 : ℚ) ^ (n + 1) := by
    refine pow_le_pow_right₀ ?_ (Nat.le_succ n)
    norm_num
  nlinarith [h]

theorem reconnectDelay_strict (n : Nat) (h : reconnectDelay n < 25600) :
    reconnectDelay n < reconnectDelay (n + 1) := by
  have hp : (0 : ℚ) < 100 * (8 / 5 : ℚ) ^ n := by positivity
  have ha : 100 * (8 / 5 : ℚ) ^ n < 25600 := by
    by_contra hc
    push_neg at hc
    rw [reconnectDelay, min_eq_right hc] at h
    exact lt_irrefl _ h
  have hlt : 100 * (8 / 5 : ℚ) ^ n < 100 * (8 / 5 : ℚ) ^ (n + 1) := by
    rw [pow_succ]
    nlinarith [hp]
  rw [reconnectDelay, reconnectDelay, min_eq_left ha.le]
  exact lt_min hlt ha

/-- C1 (counterexample): with the queue holding frame `1` from a
disconnection, reconnecting and then appending frame `2` transmits the new
frame `2` before the queued frame `1`: the transmission order is `[2, 1]`,
not the arrival order `[1, 2]` required by the claim (the queued frame was
enqueued, but is not transmitted before the frame appended after
reconnection). -/
theorem C1_fifo_counterexample :
    (sttInit.appendAudio 1).audioBuffer = [1] ∧
    c1Run.sentAudio = [2, 1] ∧
    c1Run.sentAudio ≠ [1, 2] := by
  refine ⟨rfl, rfl, ?_⟩
  decide

/-- C1 (amended): frames appended while the connection is not open (or the
session is not active) are enqueued in arrival order and nothing is
transmitted; reconnecting by itself transmits nothing and leaves the queue
untouched; and a frame appended while connected and active is transmitted
immediately followed by every queued frame in queue (FIFO) order, emptying
the queue — so no frame is dropped, but the frame appended after
reconnection is transmitted before the queued frames rather than after
them. -/
theorem C1_queue_flush_amended (s : STTSession) (f : Frame) :
    ((!s.isConnected || !s.isSessionActive) = true →
      s.appendAudio f =
        { s with audioBuffer := s.audioBuffer ++ [f] }) ∧
    ((s.onOpen).sentAudio = s.sentAudio ∧ (s.onOpen).audioBuffer = s.audioBuffer) ∧
    (s.isConnected = true → s.isSessionActive = true →
      (s.appendAudio f).sentAudio = s.sentAudio ++ f :: s.audioBuffer ∧
      (s.appendAudio f).audioBuffer = []) := by
  refine ⟨?_, ⟨rfl, rfl⟩, ?_⟩
  · intro h
    simp only [STTSession.appendAudio, h, if_pos]
  · intro hc ha
    have hguard : (!s.isConnected || !s.isSessionActive) = false := by
      simp [hc, ha]
    simp only [STTSession.appendAudio, hguard, Bool.false_eq_true, if_false]
    rcases hb : s.audioBuffer with _ | ⟨x, xs⟩
    · simp [hb]
    · simp [hb]

/-- Witness for C1 (amended) at a concrete client state. -/
theorem C1_queue_flush_amended_witness :
    ((!sttInit.isConnected || !sttInit.isSessionActive) = true →
      sttInit.appendAudio 7 =
        { sttInit with audioBuffer := sttInit.audioBuffer ++ [7] }) ∧
    ((sttInit.onOpen).sentAudio = sttInit.sentAudio ∧
      (sttInit.onOpen).audioBuffer = sttInit.audioBuffer) ∧
    (sttInit.isConnected = true → sttInit.isSessionActive = true →
      (sttInit.appendAudio 7).sentAudio = sttInit.sentAudio ++ 7 :: sttInit.audioBuffer ∧
      (sttInit.appendAudio 7).audioBuffer = []) :=
  C1_queue_flush_amended sttInit 7

/-- C7: the delay scheduled for reconnect attempt `n` (the value of the
attempt counter, reset to 0 on every successful open) is
`min(100 * 1.6 ^ n, 25600)` milliseconds; this delay is non-decreasing in
`n`, and strictly increasing as long as it is below the 25600 ms cap. -/
theorem C7_backoff_delay (s : STTSession) (n : Nat)
    (h : s.reconnectAttempts = n) :
    (s.scheduleReconnect).scheduledReconnects =
      s.scheduledReconnects ++ [min (100 * (8 / 5 : ℚ) ^ n) 25600] ∧
    (s.onOpen).reconnectAttempts = 0 ∧
    (∀ m : Nat, reconnectDelay m ≤ reconnectDelay (m + 1)) ∧
    (∀ m : Nat, reconnectDelay m < 25600 → reconnectDelay m < reconnectDelay (m + 1)) := by
  refine ⟨?_, rfl, reconnectDelay_mono, reconnectDelay_strict⟩
  simp [STTSession.scheduleReconnect, reconnectDelay, h]

/-- Witness for C7 at attempt number 3. -/
theorem C7_backoff_delay_witness :
    ({ sttInit with reconnectAttempts := 3 } : STTSession).reconnectAttempts = 3 ∧
    (({ sttInit with reconnectAttempts := 3 } : STTSession).scheduleReconnect).scheduledReconnects =
      ({ sttInit with reconnectAttempts := 3 } : STTSession).scheduledReconnects ++
        [min (100 * (8 / 5 : ℚ) ^ 3) 25600] :=
  ⟨rfl, (C7_backoff_delay { sttInit with reconnectAttempts := 3 } 3 rfl).1⟩

/-- C8: once the reconnect counter has reached `maxReconnectAttempts` (5),
an unexpected close schedules no further reconnect and instead posts the
fatal "Max reconnection attempts exceeded" error to the parent, leaving the
counter unchanged; and a disconnection never pushes the counter above 5. -/
theorem C8_max_reconnect (s : STTSession)
    (h : s.reconnectAttempts = STTSession.maxReconnectAttempts) :
    (s.handleDisconnection).scheduledReconnects = s.scheduledReconnects ∧
    (s.handleDisconnection).parentMsgs =
      s.parentMsgs ++ [.errorMsg "Max reconnection attempts exceeded"] ∧
    (s.handleDisconnection).reconnectAttempts = STTSession.maxReconnectAttempts ∧
    (∀ t : STTSession, t.reconnectAttempts ≤ 5 →
      (t.handleDisconnection).reconnectAttempts ≤ 5) := by
  have hguard : ¬ (s.reconnectAttempts < STTSession.maxReconnectAttempts) := by
    rw [h]; exact lt_irrefl _
  refine ⟨?_, ?_, ?_, ?_⟩
  · simp [STTSession.handleDisconnection, hguard]
  · simp [STTSession.handleDisconnection, hguard]
  · simp [STTSession.handleDisconnection, hguard, h]
  · intro t ht
    by_cases hlt : t.reconnectAttempts < STTSession.maxReconnectAttempts
    · simp only [STTSession.handleDisconnection, hlt, if_pos, STTSession.scheduleReconnect]
      exact hlt
    · simp only [STTSession.handleDisconnection, hlt, if_false]
      exact ht

/-- Witness for C8 at a client whose reconnect counter stands at 5. -/
theorem C8_max_reconnect_witness :
    ({ sttInit with reconnectAttempts := 5 } : STTSession).reconnectAttempts =
      STTSession.maxReconnectAttempts ∧
    (({ sttInit with reconnectAttempts := 5 } : STTSession).handleDisconnection).parentMsgs =
      ({ sttInit with reconnectAttempts := 5 } : STTSession).parentMsgs ++
        [.errorMsg "Max reconnection attempts exceeded"] :=
  ⟨rfl, (C8_max_reconnect { sttInit with reconnectAttempts := 5 } rfl).2.1⟩

/-- An event the worker host `STTWorkerManager` re-emits to the
orchestrator. -/
inductive HostEvent where
  | transcriptFinal (text : String) (confidence : ℚ)
  | transcriptPartial (text : String)
  | hostError (msg : String)
  | hostStatus (s : String)
  | workerExit (code : Int)
deriving DecidableEq, Repr

/-- State of the worker host `STTWorkerManager` (`main/workerManager.ts`):
whether a worker object exists (`worker !== null`), the `isActive` flag, the
audio frames posted to the worker in order, and the events emitted to the
orchestrator. -/
structure STTWorkerManager where
  workerPresent : Bool
  isActive : Bool
  postedFrames : List Frame
  emitted : List HostEvent
deriving DecidableEq, Repr

/-- `STTWorkerManager.isRunning`: `this.isActive && this.worker !== null`. -/
def STTWorkerManager.isRunning (m : STTWorkerManager) : Bool :=
  m.isActive && m.workerPresent

/-- `STTWorkerManager.sendAudio`: if there is no worker or it is not active,
log a warning and return without posting, queuing or emitting anything;
otherwise post the frame to the worker (transferring the buffer). -/
def STTWorkerManager.sendAudio (m : STTWorkerManager) (f : Frame) : STTWorkerManager :=
  if !m.workerPresent || !m.isActive then
    m
  else
    { m with postedFrames := m.postedFrames ++ [f] }

/-- A worker host with no worker spawned and nothing posted or emitted. -/
def hostInit : STTWorkerManager :=
  { workerPresent := false, isActive := false, postedFrames := [], emitted := [] }

/-- C10: calling `sendAudio` while the STT worker is not running leaves the
host state completely unchanged — the frame is not posted to any worker, not
queued, and no event is emitted — so the frame is silently discarded and can
never be transmitted later. -/
theorem C10_sendAudio_noop (m : STTWorkerManager) (f : Frame)
    (h : m.isRunning = false) :
    m.sendAudio f = m := by
  have hguard : (!m.workerPresent || !m.isActive) = true := by
    rcases hw : m.workerPresent <;> rcases ha : m.isActive <;>
      simp_all [STTWorkerManager.isRunning]
  simp [STTWorkerManager.sendAudio, hguard]

/-- Witness for C10 at a host with no worker. -/
theorem C10_sendAudio_noop_witness :
    hostInit.isRunning = false ∧ hostInit.sendAudio 3 = hostInit :=
  ⟨rfl, C10_sendAudio_noop hostInit 3 rfl⟩

/-- Environment of one `ClipboardService.copyAndVerify` call: whether the
clipboard write call succeeds without throwing, and what a subsequent
`readText` returns given the text just written (`none` models a throwing
read; a racing process may make the result differ from what was written). -/
structure ClipEnv where
  writeOk : Bool
  readAfterWrite : String → Option String

/-- Guard of `copyAndVerify`: the source test
`!text || text.trim().length === 0`, i.e. the text is empty or consists only
of whitespace characters (so that trimming leaves nothing). -/
def isBlankText (text : String) : Bool :=
  decide (text = "") || text.data.all Char.isWhitespace

/-- `ClipboardService.copyAndVerify` (`main/clipboard.ts`), acting on the
current clipboard content: empty or whitespace-only text returns `false`
without writing; otherwise the text is written, read back, and the result is
`true` exactly when the read-back equals the text; any thrown clipboard error
yields `false`. Returns the result and the final clipboard content. -/
def copyAndVerify (env : ClipEnv) (clip text : String) : Bool × String :=
  if isBlankText text then
    (false, clip)
  else if !env.writeOk then
    (false, clip)
  else
    match env.readAfterWrite text with
    | none => (false, text)
    | some r => (r == text, r)

/-- C6: when the write call succeeds, `copyAndVerify text` returns `true` if
and only if reading the clipboard back after the write yields exactly `text`;
and for empty or whitespace-only `text` it returns `false` without
performing any write, leaving the clipboard content unchanged. -/
theorem C6_copyAndVerify (env : ClipEnv) (clip text : String) :
    (isBlankText text = false → env.writeOk = true →
      ((copyAndVerify env clip text).1 = true ↔
        env.readAfterWrite text = some text)) ∧
    (isBlankText text = true → copyAndVerify env clip text = (false, clip)) := by
  constructor
  · intro ht hw
    rcases hr : env.readAfterWrite text with _ | r
    · unfold copyAndVerify
      rw [ht, hw, hr]
      simp
    · unfold copyAndVerify
      rw [ht, hw, hr]
      simp [beq_iff_eq]
  · intro ht
    unfold copyAndVerify
    rw [ht]
    simp

/-- Witness for C6 at the text "hello" with a faithful clipboard, and at the
whitespace-only text " ". -/
theorem C6_copyAndVerify_witness :
    (isBlankText " " = true ∧
      copyAndVerify ⟨true, fun t => some t⟩ "prev" " " = (false, "prev")) ∧
    (isBlankText "hello" = false ∧
      ((copyAndVerify ⟨true, fun t => some t⟩ "prev" "hello").1 = true ↔
        (⟨true, fun t => some t⟩ : ClipEnv).readAfterWrite "hello" = some "hello")) := by
  refine ⟨⟨by decide, ?_⟩, ⟨by decide, ?_⟩⟩
  · exact (C6_copyAndVerify ⟨true, fun t => some t⟩ "prev" " ").2 (by decide)
  · exact (C6_copyAndVerify ⟨true, fun t => some t⟩ "prev" "hello").1 (by decide) rfl

/-- The per-session metrics of `PerformanceMonitor` (`main/perfMonitor.ts`)
that the clipboard-latency step reads or writes; all fields but `startTime`
are optional until the corresponding phase completes. -/
structure PerfSession where
  startTime : ℚ
  recordingStartTime : Option ℚ := none
  recordingEndTime : Option ℚ := none
  clipboardStartTime : Option ℚ := none
  clipboardEndTime : Option ℚ := none
  clipboardLatency : Option ℚ := none
  totalLatency : Option ℚ := none
  endToEndLatency : Option ℚ := none
deriving DecidableEq, Repr

/-- The latency thresholds of `PerformanceMonitor`. -/
structure LatencyThresholds where
  clipboardMax : ℚ
  sttMax : ℚ
  totalMax : ℚ
  audioChunkMax : ℚ
deriving DecidableEq, Repr

/-- A `latency-warning(kind, value)` event emitted by the monitor. -/
inductive Warning where
  | clipboard (value : ℚ)
  | total (value : ℚ)
  | stt (value : ℚ)
  | audioChunk (value : ℚ)
deriving DecidableEq, Repr

/-- State of `PerformanceMonitor`: the current session (if any) and the
thresholds. -/
structure PerformanceMonitor where
  currentSession : Option PerfSession
  thresholds : LatencyThresholds
deriving DecidableEq, Repr

/-- `PerformanceMonitor.recordClipboardLatency(latency)` evaluated at time
`now` (`performance.now()`): with no active session it only logs; otherwise
it records the clipboard interval, sets `totalLatency = now − recordingEndTime`
when a recording stop was marked, sets `endToEndLatency = now − startTime`,
and emits a `clipboard` warning when `latency` exceeds `clipboardMax` and a
`total` warning when the (truthy) total latency exceeds `totalMax`. Returns
the new monitor state and the warnings emitted by this call, in order. -/
def recordClipboardLatency (pm : PerformanceMonitor) (now latency : ℚ) :
    PerformanceMonitor × List Warning :=
  match pm.currentSession with
  | none => (pm, [])
  | some s =>
    let s1 := { s with
      clipboardStartTime := some (now - latency)
      clipboardEndTime := some now
      clipboardLatency := some latency }
    let s2 :=
      match s1.recordingEndTime with
      | some e => { s1 with totalLatency := some (now - e) }
      | none => s1
    let s3 := { s2 with endToEndLatency := some (now - s2.startTime) }
    let w1 : List Warning :=
      if latency > pm.thresholds.clipboardMax then [.clipboard latency] else []
    let w2 : List Warning :=
      match s3.totalLatency with
      | some v => if v ≠ 0 ∧ v > pm.thresholds.totalMax then [.total v] else []
      | none => []
    ({ pm with currentSession := some s3 }, w1 ++ w2)

/-- Whether a warning is of kind `clipboard`. -/
def Warning.isClipboardKind : Warning → Bool
  | .clipboard _ => true
  | _ => false

/-- The monitor state refuting claim C9: recording stopped at `T0 = 0`,
session started at 0, both thresholds at their default 500 ms. -/
def c9Monitor : PerformanceMonitor :=
  { currentSession := some { startTime := 0, recordingEndTime := some 0 }
    thresholds :=
      { clipboardMax := 500, sttMax := 2000, totalMax := 500, audioChunkMax := 50 } }

/-- C9 (counterexample): with recording stopped at `T0 = 0` and a clipboard
threshold of 500 ms, calling `recordClipboardLatency` with a measured
clipboard duration of 100 ms at `T1 = 1000` gives `T1 − T0 = 1000 > 500`,
yet no warning of kind `clipboard` is emitted (only a `total` warning):
the clipboard warning is driven by the passed duration, not by `T1 − T0`. -/
theorem C9_clipboard_warning_counterexample :
    ((recordClipboardLatency c9Monitor 1000 100).2.filter Warning.isClipboardKind = [] ∧
      (recordClipboardLatency c9Monitor 1000 100).2 = [.total 1000]) ∧
    ((1000 : ℚ) - 0 > c9Monitor.thresholds.clipboardMax) ∧
    ((recordClipboardLatency c9Monitor 1000 100).1.currentSession.map
      PerfSession.totalLatency = some (some 1000)) := by
  have hrun : recordClipboardLatency c9Monitor 1000 100 =
      ({ currentSession := some
            { startTime := 0, recordingEndTime := some 0,
              clipboardStartTime := some 900, clipboardEndTime := some 1000,
              clipboardLatency := some 100, totalLatency := some 1000,
              endToEndLatency := some 1000 }
         thresholds := c9Monitor.thresholds }, [.total 1000]) := by
    unfold recordClipboardLatency c9Monitor
    norm_num
  rw [hrun]
  refine ⟨⟨rfl, rfl⟩, by norm_num [c9Monitor], rfl⟩

/-- C9 (amended): when a session is active with `recordingEndTime = T0`,
calling `recordClipboardLatency(durationMs)` at time `T1` sets
`totalLatency` to `T1 − T0` and `endToEndLatency` to `T1` minus the session
start time; a warning of kind `clipboard` is emitted if and only if the
*passed duration* `durationMs` exceeds the configured maximum clipboard
latency — the quantity `T1 − T0` instead governs the separate warning of
kind `total` against `totalMax`. -/
theorem C9_clipboard_latency_amended (pm : PerformanceMonitor) (s : PerfSession)
    (t0 now latency : ℚ) (h1 : pm.currentSession = some s)
    (h2 : s.recordingEndTime = some t0) :
    ((recordClipboardLatency pm now latency).1.currentSession.map
        PerfSession.totalLatency = some (some (now - t0))) ∧
    ((recordClipboardLatency pm now latency).1.currentSession.map
        PerfSession.endToEndLatency = some (some (now - s.startTime))) ∧
    (Warning.clipboard latency ∈ (recordClipboardLatency pm now latency).2 ↔
      latency > pm.thresholds.clipboardMax) ∧
    (Warning.total (now - t0) ∈ (recordClipboardLatency pm now latency).2 ↔
      (now - t0 ≠ 0 ∧ now - t0 > pm.thresholds.totalMax)) := by
  unfold recordClipboardLatency
  rw [h1]
  simp only [h2]
  refine ⟨rfl, rfl, ?_, ?_⟩
  · constructor
    · intro hm
      rcases List.mem_append.mp hm with hm1 | hm2
      · by_cases hc : latency > pm.thresholds.clipboardMax
        · exact hc
        · rw [if_neg hc] at hm1
          exact absurd hm1 (List.not_mem_nil _)
      · by_cases hc : now - t0 ≠ 0 ∧ now - t0 > pm.thresholds.totalMax
        · rw [if_pos hc] at hm2
          rcases List.mem_singleton.mp hm2 with h
          exact absurd h (by simp)
        · rw [if_neg hc] at hm2
          exact absurd hm2 (List.not_mem_nil _)
    · intro hc
      exact List.mem_append.mpr (Or.inl (by rw [if_pos hc]; exact List.mem_singleton_self _))
  · constructor
    · intro hm
      rcases List.mem_append.mp hm with hm1 | hm2
      · by_cases hc : latency > pm.thresholds.clipboardMax
        · rw [if_pos hc] at hm1
          rcases List.mem_singleton.mp hm1 with h
          exact absurd h (by simp)
        · rw [if_neg hc] at hm1
          exact absurd hm1 (List.not_mem_nil _)
      · by_cases hc : now - t0 ≠ 0 ∧ now - t0 > pm.thresholds.totalMax
        · exact hc
        · rw [if_neg hc] at hm2
          exact absurd hm2 (List.not_mem_nil _)
    · intro hc
      refine List.mem_append.mpr (Or.inr ?_)
      rw [if_pos hc]
      exact List.mem_singleton_self _

/-- Witness for C9 (amended) at the concrete monitor state of the
counterexample run. -/
theorem C9_clipboard_latency_amended_witness :
    ((recordClipboardLatency c9Monitor 1000 100).1.currentSession.map
        PerfSession.totalLatency = some (some ((1000 : ℚ) - 0))) ∧
    (Warning.clipboard 100 ∈ (recordClipboardLatency c9Monitor 1000 100).2 ↔
      (100 : ℚ) > c9Monitor.thresholds.clipboardMax) := by
  have h := C9_clipboard_latency_amended c9Monitor
    { startTime := 0, recordingEndTime := some 0 } 0 1000 100 rfl rfl
  exact ⟨h.1, h.2.2.1⟩

/-- The states of the orchestrator finite-state machine
(`AppState` in `main/stateManager.ts`). -/
inductive AppState where
  | idle
  | starting
  | recording
  | stopping
  | processing
  | errorState
  | recovering
  | fatal
deriving DecidableEq, Repr

/-- The valid-transition table `StateManager.validTransitions`. -/
def validTransitions : AppState → List AppState
  | .idle => [.starting, .errorState, .fatal]
  | .starting => [.recording, .errorState, .idle]
  | .recording => [.stopping, .errorState, .recovering]
  | .stopping => [.processing, .errorState, .idle]
  | .processing => [.idle, .errorState]
  | .errorState => [.recovering, .idle, .fatal]
  | .recovering => [.recording, .errorState, .idle]
  | .fatal => [.idle]

/-- The valid-transition table as written in section 4.4 of the
specification, one row per `From` state. -/
def specValidTransitions : AppState → List AppState
  | .idle => [.starting, .errorState, .fatal]
  | .starting => [.recording, .errorState, .idle]
  | .recording => [.stopping, .errorState, .recovering]
  | .stopping => [.processing, .errorState, .idle]
  | .processing => [.idle, .errorState]
  | .errorState => [.recovering, .idle, .fatal]
  | .recovering => [.recording, .errorState, .idle]
  | .fatal => [.idle]

/-- `StateManager.MAX_RETRIES`. -/
def MAX_RETRIES : Nat := 3

/-- Outcomes of the external collaborators consulted by the orchestrator's
state-entry handlers: the credential store, the worker host, audio capture,
the clipboard verifier and the settings store. -/
structure SMEnv where
  hasApiKey : Bool
  loadApiKeyOk : Bool
  testApiKeyOk : Bool
  workerStartOk : Bool
  audioStartOk : Bool
  stopOk : Bool
  clipboardOk : Bool
  clipboardLatency : ℚ
  maxLatencyMs : ℚ
  now : ℚ
deriving DecidableEq, Repr

/-- The mutable fields of `StateManager`: current and previous state, the
retry counter, the pending error-recovery timer (stored as the delay of the
scheduled `recovering` transition), the session start time, and the
initialization flag. -/
structure StateManager where
  currentState : AppState
  previousState : AppState
  retryCount : Nat
  errorRecoveryTimer : Option ℚ
  sessionStartTime : ℚ
  isInitialized : Bool
deriving DecidableEq, Repr

/-- Result of one `StateManager.transition` call: the manager state after
the call, the returned boolean, and the transitions scheduled via
`setTimeout` during the call (delay and target state), in creation order. -/
structure TransitionResult where
  st : StateManager
  ok : Bool
  scheduled : List (ℚ × AppState)
deriving DecidableEq, Repr

/-!
`StateManager.transition(targetState, data)` rejects a transition that is
not in `validTransitions` (logged, no state change, returns `false`);
otherwise it records the previous state, sets the current state, runs the
entry handler of the target state (whose own nested `transition` calls are
again guarded by the table) and returns `true`. The entry handlers cascade
at most two levels (`… → errorState → fatal`), so the dispatch is unrolled
below into one function per target state, ordered so that each nested
`transition` call of the source appears as a call to an earlier function. -/

/-- Transition to `fatal` (`onFatalEnter`): stop all active work and wait
for an external reset; no modelled field changes beyond the state. -/
def transitionFatal (s : StateManager) (_data : Option String) : TransitionResult :=
  if AppState.fatal ∈ validTransitions s.currentState then
    ⟨{ s with previousState := s.currentState, currentState := .fatal }, true, []⟩
  else
    ⟨s, false, []⟩

/-- Transition to `idle` (`onIdleEnter`): zero the retry counter and the
session start time and release the worker and the audio stream. -/
def transitionIdle (s : StateManager) (_data : Option String) : TransitionResult :=
  if AppState.idle ∈ validTransitions s.currentState then
    let s1 := { s with previousState := s.currentState, currentState := AppState.idle }
    ⟨{ s1 with retryCount := 0, sessionStartTime := 0 }, true, []⟩
  else
    ⟨s, false, []⟩

/-- Transition to `errorState` (`onErrorEnter`): increment the retry
counter; while it is below `MAX_RETRIES`, store and schedule a `recovering`
transition after `2000 * 1.5 ^ (retryCount − 1)` ms; otherwise cascade to
`fatal`. -/
def transitionError (s : StateManager) (data : Option String) : TransitionResult :=
  if AppState.errorState ∈ validTransitions s.currentState then
    let s1 := { s with previousState := s.currentState, currentState := .errorState }
    let s2 := { s1 with retryCount := s1.retryCount + 1 }
    if s2.retryCount < MAX_RETRIES then
      let delay : ℚ := 2000 * (3 / 2 : ℚ) ^ (s2.retryCount - 1)
      ⟨{ s2 with errorRecoveryTimer := some delay }, true,
        [(delay, AppState.recovering)]⟩
    else
      let r := transitionFatal s2 data
      ⟨r.st, true, r.scheduled⟩
  else
    ⟨s, false, []⟩

/-- Transition to `recording` (`onRecordingEnter`): show the overlay and
mark recording start; no modelled field changes beyond the state. -/
def transitionRecording (s : StateManager) (_data : Option String) : TransitionResult :=
  if AppState.recording ∈ validTransitions s.currentState then
    ⟨{ s with previousState := s.currentState, currentState := .recording }, true, []⟩
  else
    ⟨s, false, []⟩

/-- Transition to `starting` (`onStartingEnter`): record the session start
time; load the credential and start the worker host and audio capture,
cascading to `recording` when all succeed and to `errorState` on any
failure. -/
def transitionStarting (env : SMEnv) (s : StateManager) (_data : Option String) :
    TransitionResult :=
  if AppState.starting ∈ validTransitions s.currentState then
    let s0 := { s with previousState := s.currentState, currentState := AppState.starting }
    let s1 := { s0 with sessionStartTime := env.now }
    let r :=
      if env.loadApiKeyOk && env.workerStartOk && env.audioStartOk then
        transitionRecording s1 none
      else
        transitionError s1 none
    ⟨r.st, true, r.scheduled⟩
  else
    ⟨s, false, []⟩

/-- Transition to `stopping` (`onStoppingEnter`): stop the capture, mark
recording stop and end the STT session, cascading to `errorState` when any
of these fails; on success the manager stays in `stopping`, awaiting the
final transcript. -/
def transitionStopping (env : SMEnv) (s : StateManager) (_data : Option String) :
    TransitionResult :=
  if AppState.stopping ∈ validTransitions s.currentState then
    let s1 := { s with previousState := s.currentState, currentState := .stopping }
    if env.stopOk then
      ⟨s1, true, []⟩
    else
      let r := transitionError s1 none
      ⟨r.st, true, r.scheduled⟩
  else
    ⟨s, false, []⟩

/-- Transition to `processing` (`onProcessingEnter`): with no transcript
cascade to `errorState`; with one, run the clipboard verifier — on
verified write within the latency budget cascade to `idle`, over budget show
a warning and schedule a delayed `idle` transition after 2000 ms, and on
failure cascade to `errorState`. -/
def transitionProcessing (env : SMEnv) (s : StateManager) (data : Option String) :
    TransitionResult :=
  if AppState.processing ∈ validTransitions s.currentState then
    let s1 := { s with previousState := s.currentState, currentState := .processing }
    let r :=
      match data with
      | none => transitionError s1 none
      | some _t =>
        if env.clipboardOk then
          if env.clipboardLatency > env.maxLatencyMs then
            ⟨s1, true, [((2000 : ℚ), AppState.idle)]⟩
          else
            transitionIdle s1 none
        else
          transitionError s1 none
    ⟨r.st, true, r.scheduled⟩
  else
    ⟨s, false, []⟩

/-- Transition to `recovering` (`onRecoveringEnter`): re-validate the
credential and restart the worker host; on success zero the retry counter
and cascade to `idle`, on any check failure cascade to `errorState`
(re-incrementing the counter there). -/
def transitionRecovering (env : SMEnv) (s : StateManager) (_data : Option String) :
    TransitionResult :=
  if AppState.recovering ∈ validTransitions s.currentState then
    let s1 := { s with previousState := s.currentState, currentState := .recovering }
    let r :=
      if env.loadApiKeyOk && env.testApiKeyOk && env.workerStartOk then
        transitionIdle { s1 with retryCount := 0 } none
      else
        transitionError s1 none
    ⟨r.st, true, r.scheduled⟩
  else
    ⟨s, false, []⟩

/-- `StateManager.transition`, dispatching on the target state. -/
def StateManager.transition (env : SMEnv) (s : StateManager) (target : AppState)
    (data : Option String) : TransitionResult :=
  match target with
  | .idle => transitionIdle s data
  | .starting => transitionStarting env s data
  | .recording => transitionRecording s data
  | .stopping => transitionStopping env s data
  | .processing => transitionProcessing env s data
  | .errorState => transitionError s data
  | .recovering => transitionRecovering env s data
  | .fatal => transitionFatal s data

/-- `StateManager.initialize`: a no-op when already initialized; otherwise
it verifies that an API key is configured, transitioning to `fatal` and
failing (the source throws) when none is, and marking the manager
initialized on success. The boolean reports success. -/
def StateManager.initialize (env : SMEnv) (s : StateManager) : StateManager × Bool :=
  if s.isInitialized then (s, true)
  else if env.hasApiKey then ({ s with isInitialized := true }, true)
  else ((StateManager.transition env s .fatal none).st, false)

/-- `StateManager.startRecording`: initialize if needed (a failed
initialization rejects, reported here as `false`); from `idle` perform the
transition to `starting` and return its result; from any other state log a
warning and return `false`. -/
def StateManager.startRecording (env : SMEnv) (s : StateManager) :
    StateManager × Bool :=
  let p := StateManager.initialize env s
  if !p.2 then (p.1, false)
  else if p.1.currentState = .idle then
    let r := StateManager.transition env p.1 .starting none
    (r.st, r.ok)
  else
    (p.1, false)

/-- `StateManager.stopRecording`: from `recording` perform the transition to
`stopping`; otherwise return `false`. -/
def StateManager.stopRecording (env : SMEnv) (s : StateManager) :
    StateManager × Bool :=
  if s.currentState = .recording then
    let r := StateManager.transition env s .stopping none
    (r.st, r.ok)
  else
    (s, false)

/-- `StateManager.reset`: clear the error-recovery timer, zero the retry
counter, then perform the transition to `idle` and return its result. -/
def StateManager.reset (env : SMEnv) (s : StateManager) : StateManager × Bool :=
  let s1 := { s with errorRecoveryTimer := none, retryCount := 0 }
  let r := StateManager.transition env s1 .idle none
  (r.st, r.ok)

/-- An environment in which every external collaborator succeeds and the
clipboard step is within budget. -/
def smEnvOk : SMEnv :=
  { hasApiKey := true
    loadApiKeyOk := true
    testApiKeyOk := true
    workerStartOk := true
    audioStartOk := true
    stopOk := true
    clipboardOk := true
    clipboardLatency := 10
    maxLatencyMs := 500
    now := 0 }

/-- A freshly constructed, initialized manager in the `idle` state. -/
def smIdle : StateManager :=
  { currentState := .idle
    previousState := .idle
    retryCount := 0
    errorRecoveryTimer := none
    sessionStartTime := 0
    isInitialized := true }

/-- C2: with the manager initialized, calling `startRecording()` in any
state other than `idle` is a no-op: it returns `false` and leaves the
manager completely unchanged — no transition is performed, so no second
worker or protocol connection is started and at most one session is ever
active. -/
theorem C2_startRecording_guard (env : SMEnv) (s : StateManager)
    (h1 : s.isInitialized = true) (h2 : s.currentState ≠ AppState.idle) :
    StateManager.startRecording env s = (s, false) := by
  simp [StateManager.startRecording, StateManager.initialize, h1, h2]

/-- Witness for C2 at an initialized manager in the `recording` state. -/
theorem C2_startRecording_guard_witness :
    ({ smIdle with currentState := AppState.recording } : StateManager).isInitialized = true ∧
    ({ smIdle with currentState := AppState.recording } : StateManager).currentState ≠
      AppState.idle ∧
    StateManager.startRecording smEnvOk { smIdle with currentState := AppState.recording } =
      ({ smIdle with currentState := AppState.recording }, false) :=
  ⟨rfl, by decide,
    C2_startRecording_guard smEnvOk { smIdle with currentState := AppState.recording }
      rfl (by decide)⟩

/-- C3: every (valid) entry to the error state increments the retry count;
while the incremented count is below `MAX_RETRIES` (3) the manager stays in
the error state and a `recovering` transition is stored and scheduled after
`2000 * 1.5 ^ (retryCount − 1)` ms; once the count is at or above 3, the
entry cascades to `fatal` with nothing scheduled, and from `fatal` no
transition to `recovering` is valid; a successful transition to `idle`
resets the count to 0. -/
theorem C3_error_retry_backoff (env : SMEnv) (s : StateManager) (data : Option String)
    (h : AppState.errorState ∈ validTransitions s.currentState) :
    ((StateManager.transition env s .errorState data).ok = true) ∧
    ((StateManager.transition env s .errorState data).st.retryCount = s.retryCount + 1) ∧
    (s.retryCount + 1 < MAX_RETRIES →
      (StateManager.transition env s .errorState data).st.currentState =
        AppState.errorState ∧
      (StateManager.transition env s .errorState data).st.errorRecoveryTimer =
        some (2000 * (3 / 2 : ℚ) ^ s.retryCount) ∧
      (StateManager.transition env s .errorState data).scheduled =
        [(2000 * (3 / 2 : ℚ) ^ s.retryCount, AppState.recovering)]) ∧
    (MAX_RETRIES ≤ s.retryCount + 1 →
      (StateManager.transition env s .errorState data).st.currentState = AppState.fatal ∧
      (StateManager.transition env s .errorState data).scheduled = []) ∧
    (AppState.recovering ∉ validTransitions AppState.fatal) ∧
    (∀ (s2 : StateManager) (d2 : Option String),
      AppState.idle ∈ validTransitions s2.currentState →
      (StateManager.transition env s2 .idle d2).st.retryCount = 0) := by
  unfold StateManager.transition
  by_cases hc : s.retryCount + 1 < MAX_RETRIES
  · refine ⟨?_, ?_, fun hcc => ⟨?_, ?_, ?_⟩, fun hge => absurd hc (by omega), by decide, ?_⟩
    · simp [transitionError, h, hc]
    · simp [transitionError, h, hc]
    · simp [transitionError, h, hc]
    · simp [transitionError, h, hc]
    · simp [transitionError, h, hc]
    · intro s2 d2 h2
      simp [transitionIdle, h2]
  · have hf : AppState.fatal ∈ validTransitions AppState.errorState := by decide
    refine ⟨?_, ?_, fun hcc => absurd hcc hc, fun hge => ⟨?_, ?_⟩, by decide, ?_⟩
    · simp [transitionError, h, hc, transitionFatal, hf]
    · simp [transitionError, h, hc, transitionFatal, hf]
    · simp [transitionError, h, hc, transitionFatal, hf]
    · simp [transitionError, h, hc, transitionFatal, hf]
    · intro s2 d2 h2
      simp [transitionIdle, h2]

/-- Witness for C3 entering the error state from `recording` with the retry
count at 0: the count becomes 1 and a 2000 ms recovery is scheduled. -/
theorem C3_error_retry_backoff_witness :
    AppState.errorState ∈
      validTransitions
        ({ smIdle with currentState := AppState.recording } : StateManager).currentState ∧
    (StateManager.transition smEnvOk { smIdle with currentState := AppState.recording }
        .errorState none).st.retryCount =
      ({ smIdle with currentState := AppState.recording } : StateManager).retryCount + 1 :=
  ⟨by decide,
    (C3_error_retry_backoff smEnvOk { smIdle with currentState := AppState.recording }
      none (by decide)).2.1⟩

/-- C4: the transition table of the source coincides row by row with the
table of specification section 4.4, and every transition not in that table
is rejected: `transition(to)` returns `false`, schedules nothing, and leaves
the manager unchanged. -/
theorem C4_invalid_transition_rejected (env : SMEnv) (s : StateManager)
    (target : AppState) (data : Option String)
    (h : target ∉ specValidTransitions s.currentState) :
    StateManager.transition env s target data = ⟨s, false, []⟩ ∧
    (∀ a : AppState, validTransitions a = specValidTransitions a) := by
  have htab : ∀ a : AppState, validTransitions a = specValidTransitions a := by
    intro a
    cases a <;> rfl
  have hcode : target ∉ validTransitions s.currentState := by
    rw [htab]
    exact h
  refine ⟨?_, htab⟩
  cases target <;>
    simp [StateManager.transition, transitionIdle, transitionStarting,
      transitionRecording, transitionStopping, transitionProcessing,
      transitionError, transitionRecovering, transitionFatal, hcode]

/-- Witness for C4 at the invalid transition `fatal → recording`. -/
theorem C4_invalid_transition_rejected_witness :
    AppState.recording ∉
      specValidTransitions
        ({ smIdle with currentState := AppState.fatal } : StateManager).currentState ∧
    StateManager.transition smEnvOk { smIdle with currentState := AppState.fatal }
        .recording none =
      ⟨{ smIdle with currentState := AppState.fatal }, false, []⟩ :=
  ⟨by decide,
    (C4_invalid_transition_rejected smEnvOk { smIdle with currentState := AppState.fatal }
      .recording none (by decide)).1⟩

/-- C5 (counterexample): `reset()` invoked while the manager is in
`recording` clears the timer and the counter but does not force the state to
`idle`: the table has no `recording → idle` edge, so the transition is
rejected, the manager stays in `recording`, and `reset()` reports failure;
from `idle` it likewise reports failure (no `idle → idle` edge). -/
theorem C5_reset_counterexample :
    (StateManager.reset smEnvOk
        { smIdle with currentState := AppState.recording }).1.currentState =
      AppState.recording ∧
    (StateManager.reset smEnvOk { smIdle with currentState := AppState.recording }).2 =
      false ∧
    (StateManager.reset smEnvOk smIdle).2 = false :=
  ⟨rfl, rfl, rfl⟩

/-- C5 (amended): `reset()` always clears the pending error-recovery timer
and zeroes the retry count, but it forces the state to `idle` and reports
success exactly when `idle` is reachable from the current state in the
transition table — that is, from every state except `recording` and `idle`
itself; otherwise it reports failure and leaves the current state
unchanged (in particular, from `recording` it fails). -/
theorem C5_reset_amended (env : SMEnv) (s : StateManager) :
    ((StateManager.reset env s).1.errorRecoveryTimer = none) ∧
    ((StateManager.reset env s).1.retryCount = 0) ∧
    ((StateManager.reset env s).2 = true ↔
      AppState.idle ∈ validTransitions s.currentState) ∧
    ((StateManager.reset env s).2 = true →
      (StateManager.reset env s).1.currentState = AppState.idle) ∧
    ((StateManager.reset env s).2 = false →
      (StateManager.reset env s).1.currentState = s.currentState) ∧
    (s.currentState = AppState.recording → (StateManager.reset env s).2 = false) := by
  by_cases h : AppState.idle ∈ validTransitions s.currentState
  · refine ⟨?_, ?_, ?_, ?_, ?_, ?_⟩ <;>
      simp [StateManager.reset, StateManager.transition, transitionIdle, h]
    intro hrec
    rw [hrec] at h
    simp [validTransitions] at h
  · refine ⟨?_, ?_, ?_, ?_, ?_, ?_⟩ <;>
      simp [StateManager.reset, StateManager.transition, transitionIdle, h]

/-- A manager in the `fatal` state with a pending recovery timer. -/
def smFatalTimer : StateManager :=
  { smIdle with currentState := AppState.fatal, errorRecoveryTimer := some 5 }

/-- Witness for C5 (amended) at a manager in `fatal` with a pending timer,
where `reset()` does force `idle`, and at a manager in `recording`, where it
fails. -/
theorem C5_reset_amended_witness :
    ((StateManager.reset smEnvOk smFatalTimer).1.errorRecoveryTimer = none) ∧
    ((StateManager.reset smEnvOk smFatalTimer).2 = true →
      (StateManager.reset smEnvOk smFatalTimer).1.currentState = AppState.idle) ∧
    (({ smIdle with currentState := AppState.recording } : StateManager).currentState =
        AppState.recording →
      (StateManager.reset smEnvOk { smIdle with currentState := AppState.recording }).2 =
        false) :=
  ⟨(C5_reset_amended smEnvOk smFatalTimer).1,
    (C5_reset_amended smEnvOk smFatalTimer).2.2.2.1,
    (C5_reset_amended smEnvOk
      { smIdle with currentState := AppState.recording }).2.2.2.2.2⟩

end Speak
